import Mathlib

set_option maxHeartbeats 1000000

/-!
Shallow embedding of the Linear backlinks synchronization task
(plugins/linear/server/tasks/SyncLinearBacklinksTask.ts) together with
proofs about its reconciliation diff, per-operation error classification,
and attachment-URL canonicalization.

Modelling conventions:
- Remote GraphQL calls and database lookups are modelled as oracle data
  carried in a RemoteEnv record; each call site reads the corresponding
  response value, so a run is a pure function of the environment.
- A JavaScript promise rejection is modelled by CallResult.error carrying
  the thrown error message (the source classifies errors by substring
  checks on the message).
- Promise.allSettled is modelled by settling every operation with its own
  response from the environment, independently of the other operations,
  and collecting the outcomes in operation order.
- The WHATWG URL object used by buildAttachmentUrl is modelled for inputs
  of the shape scheme://host[:port][/path][?query][#fragment]; the model
  performs no percent-encoding or case normalization, which is exact for
  URLs made of already-encoded lower-case components.
-/

/-- Whether the second character list is a leading segment of the first. -/
def leadsWith : List Char → List Char → Bool
  | _, [] => true
  | [], _ :: _ => false
  | c :: cs, p :: ps => c == p && leadsWith cs ps

/-- Whether the second character list occurs contiguously in the first. -/
def containsChars : List Char → List Char → Bool
  | [], p => p.isEmpty
  | c :: cs, p => leadsWith (c :: cs) p || containsChars cs p

/-- Substring test, modelling JavaScript String.prototype.includes as used
for error-message classification. -/
def strIncludes (s pat : String) : Bool :=
  containsChars s.data pat.data

/-- Log levels of the structured logger used by the task. -/
inductive LogLevel where
  | debug
  | info
  | warn
deriving DecidableEq, Repr

/-- A structured log entry (level and leading message). -/
structure LogEntry where
  level : LogLevel
  msg : String
deriving DecidableEq, Repr

/-- A Linear issue as seen by the task (internal id and human identifier). -/
structure Issue where
  id : String
  identifier : String
deriving DecidableEq, Repr

/-- The LinearAttachment shape built by fetchAttachmentsForUrl. -/
structure LinearAttachment where
  id : String
  url : String
  issue : Issue
deriving DecidableEq, Repr

/-- Result of one awaited remote call: either a value or a rejection
carrying the thrown error message. -/
inductive CallResult (α : Type) where
  | ok : α → CallResult α
  | error : String → CallResult α
deriving DecidableEq, Repr

/-- Result payload of the Linear attachment create and delete mutations. -/
structure MutRes where
  success : Bool
deriving DecidableEq, Repr

/-- A raw node of the attachmentsForURL response, before issue resolution:
the issue field is the result of awaiting attachment.issue (it may reject,
or resolve to undefined, modelled by Option). -/
structure RawAttachmentNode where
  id : String
  url : String
  issue : CallResult (Option Issue)
deriving DecidableEq, Repr

/- ------------------------------------------------------------------ -/
/- URL model (WHATWG URL as used by buildAttachmentUrl)              -/
/- ------------------------------------------------------------------ -/

/-- Structured URL: scheme://host path ?query #fragment. The host field
includes any port. -/
structure URLRec where
  scheme : String
  host : String
  path : String
  query : List (String × String)
  fragment : Option String
deriving DecidableEq, Repr

/-- Splits a character list at the first character satisfying p: returns
the prefix of characters refuting p and the remainder. -/
def spanNot (p : Char → Bool) : List Char → List Char × List Char
  | [] => ([], [])
  | c :: cs =>
    if p c then ([], c :: cs)
    else
      let r := spanNot p cs
      (c :: r.1, r.2)

/-- Splits a character list on a separator character (occurrences of the
separator are dropped; n separators yield n+1 chunks). -/
def splitOnChar (sep : Char) : List Char → List (List Char)
  | [] => [[]]
  | c :: cs =>
    let r := splitOnChar sep cs
    if c == sep then [] :: r
    else
      match r with
      | h :: t => (c :: h) :: t
      | [] => [[c]]

/-- Parses one name=value query pair; a chunk without an equals sign is a
name with empty value, as in the urlencoded parser. -/
def parsePair (seg : List Char) : String × String :=
  let r := spanNot (fun c => c == '=') seg
  match r.2 with
  | _ :: v => (String.mk r.1, String.mk v)
  | [] => (String.mk r.1, "")

/-- Parses a query string into name-value pairs; empty chunks are skipped,
as in the urlencoded parser backing URLSearchParams. -/
def parseQuery (cs : List Char) : List (String × String) :=
  ((splitOnChar '&' cs).filter (fun seg => !seg.isEmpty)).map parsePair

/-- Characters terminating the host component of a URL. -/
def isHostEnd (c : Char) : Bool := c == '/' || c == '?' || c == '#'

/-- Characters terminating the path component of a URL. -/
def isPathEnd (c : Char) : Bool := c == '?' || c == '#'

/-- Parses a character list as an absolute URL of the supported shape;
none models the URL constructor throwing. An empty path serializes as the
root path, as in WHATWG URLs with special schemes. -/
def parseChars (cs : List Char) : Option URLRec :=
  let s1 := spanNot (fun c => c == ':') cs
  match s1.2 with
  | ':' :: '/' :: '/' :: rest2 =>
    if s1.1.isEmpty || !s1.1.all Char.isAlpha then none
    else
      let s2 := spanNot isHostEnd rest2
      if s2.1.isEmpty then none
      else
        let s3 := spanNot isPathEnd s2.2
        let path := if s3.1.isEmpty then "/" else String.mk s3.1
        let base : URLRec :=
          { scheme := String.mk s1.1, host := String.mk s2.1, path := path
            query := [], fragment := none }
        match s3.2 with
        | '?' :: restQ =>
          let s4 := spanNot (fun c => c == '#') restQ
          match s4.2 with
          | _ :: frag =>
            some { base with query := parseQuery s4.1
                             fragment := some (String.mk frag) }
          | [] => some { base with query := parseQuery s4.1 }
        | _ :: frag => some { base with fragment := some (String.mk frag) }
        | [] => some base
  | _ => none

/-- Parses a string as an absolute URL; none models new URL throwing. -/
def URL.parse (s : String) : Option URLRec := parseChars s.data

/-- Serializes query pairs, as URLSearchParams.toString does. -/
def renderQuery : List (String × String) → String
  | [] => ""
  | [p] => p.1 ++ "=" ++ p.2
  | p :: rest => p.1 ++ "=" ++ p.2 ++ "&" ++ renderQuery rest

/-- Serializes a URL record, as url.toString does. -/
def URLRec.render (u : URLRec) : String :=
  u.scheme ++ "://" ++ u.host ++ u.path ++
    (if u.query.isEmpty then "" else "?" ++ renderQuery u.query) ++
    (match u.fragment with
     | none => ""
     | some f => "#" ++ f)

/-- Models url.searchParams.set: replaces the first pair with the given
name and removes the others, or appends the pair when the name is new. -/
def setParam : List (String × String) → String → String → List (String × String)
  | [], n, v => [(n, v)]
  | (k, w) :: rest, n, v =>
    if k == n then (n, v) :: rest.filter (fun p => !(p.1 == n))
    else (k, w) :: setParam rest n v

/- ------------------------------------------------------------------ -/
/- Constants and helpers of SyncLinearBacklinksTask.ts               -/
/- ------------------------------------------------------------------ -/

/-- Subtitle used to identify attachments created by Outline. -/
def OUTLINE_ATTACHMENT_SUBTITLE : String := "Outline"

/-- Query parameter name used to identify Outline-created attachments. -/
def OUTLINE_REF_PARAM : String := "ref"

/-- Query parameter value used to identify Outline-created attachments. -/
def OUTLINE_REF_VALUE : String := "outline-backlink"

/-- The URL record buildAttachmentUrl serializes: the parsed base URL with
the Outline marker parameter set. -/
def buildAttachmentUrlRec (baseUrl : String) : Option URLRec :=
  (URL.parse baseUrl).map
    (fun u => { u with query := setParam u.query OUTLINE_REF_PARAM OUTLINE_REF_VALUE })

/-- buildAttachmentUrl of the source: parse the base URL, set the marker
query parameter, serialize; a parse failure is a thrown error. -/
def buildAttachmentUrl (baseUrl : String) : Except String String :=
  match buildAttachmentUrlRec baseUrl with
  | some u => .ok u.render
  | none => .error ("Invalid attachment base URL: " ++ baseUrl)

/-- Models the JavaScript truthiness test on a string (empty is falsy). -/
def truthy (s : String) : Bool := !s.isEmpty

/-- Models path.startsWith of a slash: the first character is a slash. -/
def startsWithSlash (p : String) : Bool := p.data.head? == some '/'

/-- The path normalization inside buildEntityUrl: prepend a slash unless
the path already starts with one. -/
def padPath (p : String) : String :=
  if startsWithSlash p then p else "/" ++ p

/-- buildEntityUrl of the source: concatenates the configured base URL
with the (slash-normalized) entity path. -/
def buildEntityUrl (envUrl path : String) : String :=
  envUrl ++ padPath path

/- ------------------------------------------------------------------ -/
/- Database records and target resolution                            -/
/- ------------------------------------------------------------------ -/

/-- A document row as consumed by resolveTarget; an empty path models a
missing or unset path (falsy in the source check). -/
structure DocRecord where
  title : String
  path : String
deriving DecidableEq, Repr

/-- A collection row as consumed by resolveTarget. -/
structure CollRecord where
  name : String
  path : String
deriving DecidableEq, Repr

/-- Models JavaScript truthiness of an optional id argument: undefined and
the empty string are both falsy. -/
def optTruthy : Option String → Option String
  | some s => if s.isEmpty then none else some s
  | none => none

/-- Warning emitted when both target ids are provided. -/
def bothIdsWarnMsg : String :=
  "Both documentId and collectionId provided to resolveTarget, using documentId"

/-- Warning emitted when the base URL environment variable is missing. -/
def noEnvUrlWarnMsg : String :=
  "env.URL is not configured, cannot construct attachment URL"

/-- resolveTarget of the source: resolves a document or collection id to a
title and entity URL, returning empty strings when the target or the base
URL configuration is absent; returns the produced log entries as data. -/
def resolveTarget (envUrl : String) (documentId collectionId : Option String)
    (docLookup : String → Option DocRecord)
    (collLookup : String → Option CollRecord) :
    (String × String) × List LogEntry :=
  let bothWarn : List LogEntry :=
    match optTruthy documentId, optTruthy collectionId with
    | some _, some _ => [⟨.warn, bothIdsWarnMsg⟩]
    | _, _ => []
  if !truthy envUrl then (("", ""), bothWarn ++ [⟨.warn, noEnvUrlWarnMsg⟩])
  else
    match optTruthy documentId with
    | some did =>
      match docLookup did with
      | some d =>
        if !truthy d.path then (("", ""), bothWarn)
        else ((if truthy d.title then d.title else "Untitled",
               buildEntityUrl envUrl d.path), bothWarn)
      | none => (("", ""), bothWarn)
    | none =>
      match optTruthy collectionId with
      | some cid =>
        match collLookup cid with
        | some c =>
          if !truthy c.path then (("", ""), bothWarn)
          else ((if truthy c.name then c.name else "Untitled Collection",
                 buildEntityUrl envUrl c.path), bothWarn)
        | none => (("", ""), bothWarn)
      | none => (("", ""), bothWarn)

/- ------------------------------------------------------------------ -/
/- Fetching existing attachments                                     -/
/- ------------------------------------------------------------------ -/

/-- The issue-resolution step of fetchAttachmentsForUrl for one node: a
node whose issue resolved to undefined yields nothing. -/
def resolveNode (n : RawAttachmentNode) : Option LinearAttachment :=
  match n.issue with
  | .ok (some i) => some { id := n.id, url := n.url, issue := i }
  | _ => none

/-- Whether awaiting the issue of the node rejected. -/
def nodeErrored (n : RawAttachmentNode) : Bool :=
  match n.issue with
  | .error _ => true
  | _ => false

/-- Warning emitted when listing attachments fails. -/
def fetchWarnMsg : String := "Failed to fetch Linear attachments for URL"

/-- fetchAttachmentsForUrl of the source: lists attachments for the URL,
resolves each issue, drops nodes whose issue is undefined; any rejection
(of the list call or of an issue resolution) is caught and yields an
empty list with a warning. -/
def fetchAttachmentsForUrl (res : CallResult (List RawAttachmentNode)) :
    List LinearAttachment × List LogEntry :=
  match res with
  | .error _ => ([], [⟨.warn, fetchWarnMsg⟩])
  | .ok nodes =>
    if nodes.any nodeErrored then ([], [⟨.warn, fetchWarnMsg⟩])
    else (nodes.filterMap resolveNode, [])

/- ------------------------------------------------------------------ -/
/- The reconciliation diff of perform                                -/
/- ------------------------------------------------------------------ -/

/-- The issue identifiers of the existing attachments; membership in this
list coincides with membership in the Set the source builds from it. -/
def existingIdentifiers (existing : List LinearAttachment) : List String :=
  existing.map (fun a => a.issue.identifier)

/-- toCreate of perform: the desired identifiers (in order, duplicates
kept) whose identifier is not among the existing ones. -/
def toCreate (desired : List String) (existing : List LinearAttachment) :
    List String :=
  desired.filter (fun i => !(existingIdentifiers existing).contains i)

/-- toDelete of perform: the existing attachments whose issue identifier
is not among the desired ones. -/
def toDelete (desired : List String) (existing : List LinearAttachment) :
    List LinearAttachment :=
  existing.filter (fun a => !desired.contains a.issue.identifier)

/- ------------------------------------------------------------------ -/
/- Per-operation execution                                           -/
/- ------------------------------------------------------------------ -/

/-- How one settled promise ended: fulfilled, or rejected with the thrown
message. -/
inductive OpOutcome where
  | fulfilled
  | rejected : String → OpOutcome
deriving DecidableEq, Repr

/-- Whether the settled outcome is a rejection. -/
def isRejected : OpOutcome → Bool
  | .rejected _ => true
  | .fulfilled => false

/-- The parameters createAttachment receives from perform. -/
structure CreateParams where
  issueIdentifier : String
  title : String
  url : String
deriving DecidableEq, Repr

/-- Warning emitted by createAttachment on a permission error. -/
def permWarnMsg : String :=
  "Linear integration lacks write permission for attachments. " ++
  "Please re-authorize the Linear integration with updated scopes."

/-- createAttachment of the source: resolve the issue identifier (a
rejection there propagates; an undefined issue is skipped with a debug
note), then create the attachment; inside the try block an unsuccessful
mutation throws, and the catch block swallows messages mentioning
Forbidden or 403 with a warning and rethrows anything else. -/
def createAttachment (params : CreateParams)
    (issueRes : CallResult (Option Issue)) (createRes : CallResult MutRes) :
    OpOutcome × List LogEntry :=
  match issueRes with
  | .error m => (.rejected m, [])
  | .ok none =>
    (.fulfilled,
     [⟨.debug, "Linear issue " ++ params.issueIdentifier ++
               " not found, skipping attachment"⟩])
  | .ok (some _) =>
    let thrown : Option String :=
      match createRes with
      | .error m => some m
      | .ok r =>
        if r.success then none
        else some ("Linear attachmentCreate returned success=false for issue "
                   ++ params.issueIdentifier)
    match thrown with
    | none => (.fulfilled, [])
    | some m =>
      if strIncludes m "Forbidden" || strIncludes m "403" then
        (.fulfilled, [⟨.warn, permWarnMsg⟩])
      else (.rejected m, [])

/-- deleteAttachment of the source: delete the attachment; inside the try
block an unsuccessful mutation throws, and the catch block swallows
messages mentioning Not found or 404 (idempotent delete) and rethrows
anything else. -/
def deleteAttachment (attachmentId : String) (deleteRes : CallResult MutRes) :
    OpOutcome × List LogEntry :=
  let thrown : Option String :=
    match deleteRes with
    | .error m => some m
    | .ok r =>
      if r.success then none
      else some ("Linear attachmentDelete returned success=false for attachment "
                 ++ attachmentId)
  match thrown with
  | none => (.fulfilled, [])
  | some m =>
    if strIncludes m "Not found" || strIncludes m "404" then (.fulfilled, [])
    else (.rejected m, [])

/- ------------------------------------------------------------------ -/
/- The orchestrating perform                                         -/
/- ------------------------------------------------------------------ -/

/-- What an operation was: a create with its parameters, or a delete of an
attachment id (the issue identifier is kept for logging). -/
inductive OpSpec where
  | create : CreateParams → OpSpec
  | delete : String → String → OpSpec
deriving DecidableEq, Repr

/-- One settled operation: what it was, how it settled, what it logged. -/
structure OpSettled where
  spec : OpSpec
  outcome : OpOutcome
  logs : List LogEntry
deriving DecidableEq, Repr

/-- The aggregate outcome of a completed run. -/
structure SyncOutcome where
  created : Nat
  deleted : Nat
  succeeded : Nat
  failed : Nat
  ops : List OpSettled
  logs : List LogEntry
deriving DecidableEq, Repr

/-- Result of one perform invocation: an early silent return, a thrown
error, or a completed run with its aggregate outcome. -/
inductive PerformResult where
  | noop : List LogEntry → PerformResult
  | thrown : String → PerformResult
  | done : SyncOutcome → PerformResult
deriving DecidableEq, Repr

/-- The collaborators and remote responses of one run: client presence,
environment base URL, database lookups, and the responses each remote
call site would observe. -/
structure RemoteEnv where
  clientPresent : Bool
  envUrl : String
  docLookup : String → Option DocRecord
  collLookup : String → Option CollRecord
  attachmentsRes : CallResult (List RawAttachmentNode)
  issueRes : String → CallResult (Option Issue)
  createRes : String → CallResult MutRes
  deleteRes : String → CallResult MutRes

/-- Settles one create operation: the unit of work perform submits for a
desired identifier, computed from that identifier alone. -/
def settleCreate (env : RemoteEnv) (targetTitle attachmentUrl ident : String) :
    OpSettled :=
  let params : CreateParams :=
    { issueIdentifier := ident, title := targetTitle, url := attachmentUrl }
  let r := createAttachment params (env.issueRes ident) (env.createRes ident)
  { spec := .create params, outcome := r.1, logs := r.2 }

/-- Settles one delete operation: the unit of work perform submits for an
existing attachment, computed from that attachment alone. -/
def settleDelete (env : RemoteEnv) (a : LinearAttachment) : OpSettled :=
  let r := deleteAttachment a.id (env.deleteRes a.id)
  { spec := .delete a.id a.issue.identifier, outcome := r.1, logs := r.2 }

/-- Warning perform logs for each rejected operation. -/
def opFailedWarnMsg : String := "Linear backlink sync operation failed"

/-- Summary line perform logs when at least one operation ran. -/
def summaryMsg : String := "Linear backlinks sync completed"

/-- perform of the source: return silently without a client or a resolved
target; throw only from buildAttachmentUrl; otherwise fetch existing
attachments, diff, settle every operation independently, and aggregate
counts and logs. -/
def perform (env : RemoteEnv) (documentId collectionId : Option String)
    (currentIssueIdentifiers : List String) : PerformResult :=
  if !env.clientPresent then .noop []
  else
    let r := resolveTarget env.envUrl documentId collectionId
               env.docLookup env.collLookup
    let title := r.1.1
    let baseUrl := r.1.2
    let rlogs := r.2
    if !truthy baseUrl then
      .noop (rlogs ++ [⟨.debug, "Target not found, skipping Linear backlinks sync"⟩])
    else
      match buildAttachmentUrl baseUrl with
      | .error m => .thrown m
      | .ok attachmentUrl =>
        let f := fetchAttachmentsForUrl env.attachmentsRes
        let existing := f.1
        let flogs := f.2
        let toCreateL := toCreate currentIssueIdentifiers existing
        let toDeleteL := toDelete currentIssueIdentifiers existing
        let targetTitle := if truthy title then title else "Untitled"
        let settled :=
          toCreateL.map (settleCreate env targetTitle attachmentUrl)
            ++ toDeleteL.map (settleDelete env)
        let failCount := (settled.filter (fun s => isRejected s.outcome)).length
        let okCount := (settled.filter (fun s => !isRejected s.outcome)).length
        let failLogs := (settled.filter (fun s => isRejected s.outcome)).map
          (fun _ => LogEntry.mk .warn opFailedWarnMsg)
        let summary :=
          if settled.length > 0 then [LogEntry.mk .info summaryMsg] else []
        .done { created := toCreateL.length, deleted := toDeleteL.length
                succeeded := okCount, failed := failCount, ops := settled
                logs := rlogs ++ flogs ++ (settled.map OpSettled.logs).flatten
                        ++ failLogs ++ summary }

/-- Projects the aggregate outcome of a completed run. -/
def doneOutcome : PerformResult → Option SyncOutcome
  | .done o => some o
  | _ => none

/-- Whether perform threw. -/
def isThrown : PerformResult → Bool
  | .thrown _ => true
  | _ => false

/-- The resolved (title, url) pair of a run, as perform computes it. -/
def resolvedOf (env : RemoteEnv) (documentId collectionId : Option String) :
    String × String :=
  (resolveTarget env.envUrl documentId collectionId
    env.docLookup env.collLookup).1

/-- The title perform passes to every create operation. -/
def targetTitleOf (env : RemoteEnv) (documentId collectionId : Option String) :
    String :=
  let t := (resolvedOf env documentId collectionId).1
  if truthy t then t else "Untitled"

/-- The existing-attachment list perform diffs against. -/
def existingOf (env : RemoteEnv) : List LinearAttachment :=
  (fetchAttachmentsForUrl env.attachmentsRes).1

/- ------------------------------------------------------------------ -/
/- Shared lemmas                                                     -/
/- ------------------------------------------------------------------ -/

/-- Membership characterization of the create side of the diff. -/
theorem mem_toCreate (desired : List String) (existing : List LinearAttachment)
    (x : String) :
    x ∈ toCreate desired existing ↔
      (x ∈ desired ∧ x ∉ existingIdentifiers existing) := by
  simp [toCreate, List.mem_filter]

/-- Membership characterization of the delete side of the diff. -/
theorem mem_toDelete (desired : List String) (existing : List LinearAttachment)
    (a : LinearAttachment) :
    a ∈ toDelete desired existing ↔
      (a ∈ existing ∧ a.issue.identifier ∉ desired) := by
  simp [toDelete, List.mem_filter]

/-- Occurrence count of an identifier on the create side: the diff keeps
every one of its occurrences in the desired list unless it is already
attached. -/
theorem count_toCreate (desired : List String) (existing : List LinearAttachment)
    (i : String) :
    (toCreate desired existing).count i =
      (if i ∈ existingIdentifiers existing then 0 else desired.count i) := by
  by_cases h : i ∈ existingIdentifiers existing
  · simp [h, List.count_eq_zero]
    intro hc
    exact ((mem_toCreate _ _ _).1 hc).2 h
  · simp [h, toCreate, List.count_filter]

/-- The aggregate perform builds once it reaches the execution phase. -/
def runOutcome (env : RemoteEnv) (documentId collectionId : Option String)
    (ids : List String) (attachmentUrl : String) : SyncOutcome :=
  let existing := existingOf env
  let toCreateL := toCreate ids existing
  let toDeleteL := toDelete ids existing
  let settled :=
    toCreateL.map (settleCreate env (targetTitleOf env documentId collectionId) attachmentUrl)
      ++ toDeleteL.map (settleDelete env)
  { created := toCreateL.length, deleted := toDeleteL.length
    succeeded := (settled.filter (fun s => !isRejected s.outcome)).length
    failed := (settled.filter (fun s => isRejected s.outcome)).length
    ops := settled
    logs := (resolveTarget env.envUrl documentId collectionId env.docLookup env.collLookup).2
            ++ (fetchAttachmentsForUrl env.attachmentsRes).2
            ++ (settled.map OpSettled.logs).flatten
            ++ (settled.filter (fun s => isRejected s.outcome)).map
                 (fun _ => LogEntry.mk .warn opFailedWarnMsg)
            ++ (if settled.length > 0 then [LogEntry.mk .info summaryMsg] else []) }

/-- Without a Linear client the run is a silent no-op. -/
theorem perform_no_client (env : RemoteEnv) (d c : Option String) (ids : List String)
    (h : env.clientPresent = false) : perform env d c ids = .noop [] := by
  simp [perform, h]

/-- Without a resolved target URL the run is a silent no-op. -/
theorem perform_no_target (env : RemoteEnv) (d c : Option String) (ids : List String)
    (hc : env.clientPresent = true)
    (hb : truthy (resolvedOf env d c).2 = false) :
    perform env d c ids =
      .noop ((resolveTarget env.envUrl d c env.docLookup env.collLookup).2 ++
        [⟨.debug, "Target not found, skipping Linear backlinks sync"⟩]) := by
  simp only [resolvedOf] at hb
  simp [perform, hc, hb]

/-- When a client, a target and a well-formed URL are all present, perform
completes with the aggregate runOutcome. -/
theorem perform_done_of (env : RemoteEnv) (documentId collectionId : Option String)
    (ids : List String) (u : String)
    (hc : env.clientPresent = true)
    (hb : truthy (resolvedOf env documentId collectionId).2 = true)
    (hu : buildAttachmentUrl (resolvedOf env documentId collectionId).2 = .ok u) :
    perform env documentId collectionId ids =
      .done (runOutcome env documentId collectionId ids u) := by
  simp only [perform, hc, resolvedOf] at *
  simp only [hb, Bool.not_true, Bool.false_eq_true, if_false, ite_false]
  simp [hu, runOutcome, targetTitleOf, resolvedOf, existingOf]

/-- perform throws exactly when it reaches buildAttachmentUrl and the
resolved base URL does not parse. -/
theorem perform_thrown_iff (env : RemoteEnv) (documentId collectionId : Option String)
    (ids : List String) (m : String) :
    perform env documentId collectionId ids = .thrown m ↔
      (env.clientPresent = true
       ∧ truthy (resolvedOf env documentId collectionId).2 = true
       ∧ buildAttachmentUrl (resolvedOf env documentId collectionId).2 = .error m) := by
  cases hc : env.clientPresent
  · simp [perform, hc]
  · cases hb : truthy (resolvedOf env documentId collectionId).2
    · simp [perform, hc, resolvedOf] at *
      simp [hb]
    · cases hu : buildAttachmentUrl (resolvedOf env documentId collectionId).2 with
      | ok u =>
        rw [perform_done_of env documentId collectionId ids u hc hb hu]
        simp [hu]
      | error e =>
        simp only [perform, hc, resolvedOf] at *
        simp [hb, hu, eq_comm]

/-- The aggregate counters of a completed run are derived from the settled
operation list, and every rejection leaves a warning in the run log. -/
theorem perform_counts (env : RemoteEnv) (d c : Option String) (ids : List String)
    (o : SyncOutcome) (hdone : perform env d c ids = .done o) :
    o.failed = (o.ops.filter (fun s => isRejected s.outcome)).length
    ∧ o.succeeded = (o.ops.filter (fun s => !isRejected s.outcome)).length
    ∧ o.created + o.deleted = o.ops.length
    ∧ (∀ s ∈ o.ops, isRejected s.outcome = true →
         (⟨.warn, opFailedWarnMsg⟩ : LogEntry) ∈ o.logs) := by
  cases hc : env.clientPresent
  · rw [perform_no_client env d c ids hc] at hdone
    simp at hdone
  · cases hb : truthy (resolvedOf env d c).2
    · rw [perform_no_target env d c ids hc hb] at hdone
      simp at hdone
    · cases hu : buildAttachmentUrl (resolvedOf env d c).2 with
      | error e =>
        rw [(perform_thrown_iff env d c ids e).2 ⟨hc, hb, hu⟩] at hdone
        simp at hdone
      | ok u =>
        rw [perform_done_of env d c ids u hc hb hu] at hdone
        have ho : o = runOutcome env d c ids u := by
          cases hdone
          rfl
        subst ho
        refine ⟨rfl, rfl, by simp [runOutcome], ?_⟩
        intro s hs hrej
        simp only [runOutcome] at hs ⊢
        apply List.mem_append_left
        apply List.mem_append_right
        rw [List.mem_map]
        exact ⟨s, List.mem_filter.2 ⟨hs, hrej⟩, rfl⟩

/-- Splitting a list by a Boolean predicate partitions its length. -/
theorem length_filter_partition (l : List OpSettled) (p : OpSettled → Bool) :
    (l.filter p).length + (l.filter (fun s => !p s)).length = l.length := by
  induction l with
  | nil => rfl
  | cons s t ih =>
    cases hp : p s <;> simp [List.filter, hp, ← ih] <;> omega

/-- String equality from equality of the underlying character lists. -/
theorem strData_ext (s t : String) (h : s.data = t.data) : s = t :=
  congrArg String.mk h

/-- The slash-normalized path always starts with a slash. -/
theorem padPath_head (p : String) : (padPath p).data.head? = some '/' := by
  rw [padPath]
  cases h : startsWithSlash p
  · rfl
  · simpa [startsWithSlash] using h

/-- spanNot splits a concatenation exactly at the boundary when the left
part refutes the predicate and the right part is empty or starts with a
character satisfying it. -/
theorem spanNot_append (p : Char → Bool) (l1 l2 : List Char)
    (h1 : ∀ c ∈ l1, p c = false)
    (h2 : l2 = [] ∨ ∃ c cs, l2 = c :: cs ∧ p c = true) :
    spanNot p (l1 ++ l2) = (l1, l2) := by
  induction l1 with
  | nil =>
    rcases h2 with h | ⟨c, cs, rfl, hc⟩
    · simp [h, spanNot]
    · simp [spanNot, hc]
  | cons c cs ih =>
    have hc := h1 c (by simp)
    have ih2 := ih (fun x hx => h1 x (by simp [hx]))
    simp [spanNot, hc, ih2]

/-- Parsing a URL of the plain shape scheme://host/path with no query or
fragment characters recovers exactly these components. -/
theorem parseChars_simple (scheme host path : List Char)
    (hs : scheme ≠ [])
    (hsa : scheme.all Char.isAlpha = true)
    (hh : host ≠ [])
    (hhs : host.all (fun c => !isHostEnd c) = true)
    (hph : path.head? = some '/')
    (hps : path.all (fun c => !isPathEnd c) = true) :
    parseChars (scheme ++ ':' :: '/' :: '/' :: (host ++ path)) =
      some { scheme := String.mk scheme, host := String.mk host,
             path := String.mk path, query := [], fragment := none } := by
  obtain ⟨c0, path', rfl⟩ : ∃ c0 path', path = c0 :: path' := by
    cases path with
    | nil => simp at hph
    | cons c0 path' => exact ⟨c0, path', rfl⟩
  have hc0 : c0 = '/' := by simpa using hph
  subst hc0
  have h1 : spanNot (fun c => c == ':') (scheme ++ ':' :: '/' :: '/' :: (host ++ '/' :: path')) =
      (scheme, ':' :: '/' :: '/' :: (host ++ '/' :: path')) := by
    apply spanNot_append
    · intro c hc
      have := (List.all_eq_true.1 hsa) c hc
      simp only [beq_eq_false_iff_ne, ne_eq]
      intro h
      subst h
      simp [Char.isAlpha, Char.isLower, Char.isUpper] at this
    · right
      exact ⟨':', _, rfl, by decide⟩
  have h2 : spanNot isHostEnd (host ++ '/' :: path') = (host, '/' :: path') := by
    apply spanNot_append
    · intro c hc
      have := (List.all_eq_true.1 hhs) c hc
      simpa using this
    · right
      exact ⟨'/', _, rfl, by decide⟩
  have h3 : spanNot isPathEnd ('/' :: path' ++ []) = ('/' :: path', []) := by
    apply spanNot_append
    · intro c hc
      have := (List.all_eq_true.1 hps) c hc
      simpa using this
    · left
      rfl
  rw [List.append_nil] at h3
  simp only [parseChars, h1, h2, h3]
  simp [hs, hsa, hh]

/-- Setting a query parameter always leaves the pair in the query list. -/
theorem mem_setParam (q : List (String × String)) (n v : String) :
    (n, v) ∈ setParam q n v := by
  induction q with
  | nil => simp [setParam]
  | cons p t ih =>
    rw [setParam]
    by_cases h : p.1 = n
    · simp [h]
    · have hb : (p.1 == n) = false := by simp [h]
      cases p
      simp only at hb
      simp [hb, ih]

/-- Canonicalizing a URL of the plain shape scheme://host basePath with an
entity path free of query and fragment characters appends exactly the
slash-normalized path and the marker query parameter. -/
theorem buildAttachmentUrl_simple (scheme host basePath p : String)
    (hs : scheme.data ≠ [])
    (hsa : scheme.data.all Char.isAlpha = true)
    (hh : host.data ≠ [])
    (hhs : host.data.all (fun c => !isHostEnd c) = true)
    (hbase : basePath = "" ∨ basePath.data.head? = some '/')
    (hsafe : (basePath.data ++ (padPath p).data).all (fun c => !isPathEnd c) = true) :
    buildAttachmentUrl (buildEntityUrl (scheme ++ "://" ++ host ++ basePath) p) =
      .ok (scheme ++ "://" ++ host ++ basePath ++ padPath p ++ "?ref=outline-backlink") := by
  have hph : (basePath.data ++ (padPath p).data).head? = some '/' := by
    rcases hbase with h | h
    · simp [h, padPath_head]
    · cases hd : basePath.data with
      | nil => simp [hd] at h
      | cons c cs =>
        rw [hd] at h
        simp at h
        simp [hd, h]
  have hparse : URL.parse (buildEntityUrl (scheme ++ "://" ++ host ++ basePath) p) =
      some { scheme := scheme, host := host,
             path := basePath ++ padPath p, query := [], fragment := none } := by
    have hdata : (buildEntityUrl (scheme ++ "://" ++ host ++ basePath) p).data =
        scheme.data ++ ':' :: '/' :: '/' :: (host.data ++ (basePath.data ++ (padPath p).data)) := by
      simp [buildEntityUrl, String.data_append]
    rw [URL.parse, hdata, parseChars_simple _ _ _ hs hsa hh hhs hph hsafe]
    congr 1
  have hrec : buildAttachmentUrlRec (buildEntityUrl (scheme ++ "://" ++ host ++ basePath) p) =
      some { scheme := scheme, host := host, path := basePath ++ padPath p,
             query := [(OUTLINE_REF_PARAM, OUTLINE_REF_VALUE)], fragment := none } := by
    rw [buildAttachmentUrlRec, hparse]
    rfl
  simp only [buildAttachmentUrl, hrec]
  apply congrArg
  apply strData_ext
  simp [URLRec.render, setParam, renderQuery, OUTLINE_REF_PARAM, OUTLINE_REF_VALUE,
    String.data_append, List.append_assoc]

/- ------------------------------------------------------------------ -/
/- Claims                                                            -/
/- ------------------------------------------------------------------ -/

/-- C1: Diff correctness of reconcile: for every desired identifier list
and every list of existing remote attachments, toCreate contains exactly
the desired identifiers not among the existing issue identifiers (hence
toCreate is disjoint from the existing-identifier set), and toDelete
contains exactly the existing attachments whose issue identifier is not
desired. -/
theorem C1_diff_correct (desired : List String) (existing : List LinearAttachment) :
    (∀ x, x ∈ toCreate desired existing ↔
       (x ∈ desired ∧ x ∉ existingIdentifiers existing))
    ∧ (∀ x, x ∈ toCreate desired existing → x ∉ existingIdentifiers existing)
    ∧ (∀ a, a ∈ toDelete desired existing ↔
       (a ∈ existing ∧ a.issue.identifier ∉ desired)) :=
  ⟨fun x => mem_toCreate desired existing x,
   fun x hx => ((mem_toCreate desired existing x).1 hx).2,
   fun a => mem_toDelete desired existing a⟩

/-- Witness for C1 at a concrete desired list and attachment list. -/
theorem C1_diff_correct_witness :
    "ENG-1" ∈ toCreate ["ENG-1"] [⟨"a1", "u", ⟨"i2", "ENG-2"⟩⟩]
    ∧ "ENG-1" ∉ existingIdentifiers [⟨"a1", "u", ⟨"i2", "ENG-2"⟩⟩] :=
  ⟨by decide,
   (C1_diff_correct ["ENG-1"] [⟨"a1", "u", ⟨"i2", "ENG-2"⟩⟩]).2.1 "ENG-1" (by decide)⟩

/-- Environment for the C2 counterexample: one document, issue resolution
and attachment creation both succeed, no existing attachments. -/
def c2Env : RemoteEnv :=
  { clientPresent := true
    envUrl := "https://app.outline.dev"
    docLookup := fun d => if d == "doc1" then some ⟨"My Doc", "/doc/my-doc-abc"⟩ else none
    collLookup := fun _ => none
    attachmentsRes := .ok []
    issueRes := fun _ => .ok (some ⟨"issue-uuid-1", "ENG-1"⟩)
    createRes := fun _ => .ok ⟨true⟩
    deleteRes := fun _ => .ok ⟨true⟩ }

/-- C2 counterexample: the desired list is not deduplicated before the
create diff; a desired list with a duplicate identifier and no existing
attachment yields two create operations for the same identifier, refuting
the at-most-one-create-per-identifier claim. -/
theorem C2_counterexample :
    (toCreate ["ENG-1", "ENG-1"] []).count "ENG-1" = 2
    ∧ ¬ (toCreate ["ENG-1", "ENG-1"] []).count "ENG-1" ≤ 1
    ∧ (doneOutcome (perform c2Env (some "doc1") none ["ENG-1", "ENG-1"])).map
        (fun o => (o.created, o.ops.length)) = some (2, 2) := by
  decide

/-- C2 (amended): the reconciler does not deduplicate the desired list:
toCreate keeps every occurrence of a desired identifier that is not
already attached (the Set of desired identifiers is only used for the
delete side), so at most one create per distinct identifier holds exactly
when the desired list itself is duplicate-free. -/
theorem C2_amended (desired : List String) (existing : List LinearAttachment)
    (i : String) :
    ((toCreate desired existing).count i =
      (if i ∈ existingIdentifiers existing then 0 else desired.count i))
    ∧ (desired.Nodup → (toCreate desired existing).Nodup) :=
  ⟨count_toCreate desired existing i, fun h => h.filter _⟩

/-- Witness for C2 (amended) at a concrete duplicate-free desired list. -/
theorem C2_amended_witness :
    (["ENG-1", "ENG-2"] : List String).Nodup
    ∧ (toCreate ["ENG-1", "ENG-2"] []).Nodup :=
  ⟨by decide, (C2_amended ["ENG-1", "ENG-2"] [] "ENG-1").2 (by decide)⟩

/-- Environment for the C3 counterexample: attachment creation rejects
with a 403 permission error. -/
def c3Env : RemoteEnv :=
  { clientPresent := true
    envUrl := "https://app.outline.dev"
    docLookup := fun d => if d == "doc1" then some ⟨"My Doc", "/doc/my-doc-abc"⟩ else none
    collLookup := fun _ => none
    attachmentsRes := .ok []
    issueRes := fun _ => .ok (some ⟨"issue-uuid-1", "ENG-1"⟩)
    createRes := fun _ => .error "403 Forbidden"
    deleteRes := fun _ => .ok ⟨true⟩ }

/-- C3 counterexample: a create operation that fails with a forbidden
signal is swallowed inside createAttachment and settles fulfilled, so the
run counts it as succeeded, not failed - refuting the claim that a
permission-denied operation of either kind is marked failed in the
aggregate failure count. -/
theorem C3_counterexample :
    strIncludes "403 Forbidden" "403" = true
    ∧ (doneOutcome (perform c3Env (some "doc1") none ["ENG-1"])).map
        SyncOutcome.failed = some 0
    ∧ (doneOutcome (perform c3Env (some "doc1") none ["ENG-1"])).map
        SyncOutcome.succeeded = some 1 := by
  decide

/-- C3 (amended): a forbidden/permission-denied failure on a create is
logged as a warning and swallowed, the operation settling fulfilled (it
counts as succeeded); on a delete the error is rethrown from the
operation, so it settles rejected, is counted in the aggregate failure
count, and leaves a warning in the run log; in both cases the run itself
completes without raising, the failure count being derived from the
settled operations only. -/
theorem C3_amended :
    (∀ (params : CreateParams) (issueObj : Issue) (m : String),
       (strIncludes m "Forbidden" || strIncludes m "403") = true →
       createAttachment params (.ok (some issueObj)) (.error m) =
         (.fulfilled, [⟨.warn, permWarnMsg⟩]))
    ∧ (∀ (aid m : String),
       (strIncludes m "Not found" || strIncludes m "404") = false →
       deleteAttachment aid (.error m) = (.rejected m, []))
    ∧ (∀ (env : RemoteEnv) (d c : Option String) (ids : List String) (o : SyncOutcome),
       perform env d c ids = .done o →
       o.failed = (o.ops.filter (fun s => isRejected s.outcome)).length
       ∧ (∀ s ∈ o.ops, isRejected s.outcome = true →
            (⟨.warn, opFailedWarnMsg⟩ : LogEntry) ∈ o.logs)) := by
  refine ⟨?_, ?_, ?_⟩
  · intro params issueObj m hm
    simp [createAttachment, hm]
  · intro aid m hm
    simp [deleteAttachment, hm]
  · intro env d c ids o hdone
    have h := perform_counts env d c ids o hdone
    exact ⟨h.1, h.2.2.2⟩

/-- Environment whose run with an empty desired list and no existing
attachments completes with an all-zero outcome; used by witnesses. -/
def emptyRunEnv : RemoteEnv :=
  { clientPresent := true
    envUrl := "https://app.outline.dev"
    docLookup := fun d => if d == "doc1" then some ⟨"My Doc", "/doc/my-doc-abc"⟩ else none
    collLookup := fun _ => none
    attachmentsRes := .ok []
    issueRes := fun _ => .ok none
    createRes := fun _ => .ok ⟨true⟩
    deleteRes := fun _ => .ok ⟨true⟩ }

/-- Witness for C3 (amended) at concrete messages and a concrete run. -/
theorem C3_amended_witness :
    createAttachment ⟨"ENG-1", "T", "https://u.v/x"⟩
        (.ok (some ⟨"i1", "ENG-1"⟩)) (.error "403 Forbidden")
      = (.fulfilled, [⟨.warn, permWarnMsg⟩])
    ∧ deleteAttachment "a1" (.error "Forbidden") = (.rejected "Forbidden", [])
    ∧ ((SyncOutcome.mk 0 0 0 0 [] []).failed =
         ((SyncOutcome.mk 0 0 0 0 [] []).ops.filter
           (fun s => isRejected s.outcome)).length
       ∧ (∀ s ∈ (SyncOutcome.mk 0 0 0 0 [] []).ops, isRejected s.outcome = true →
            (⟨.warn, opFailedWarnMsg⟩ : LogEntry) ∈ (SyncOutcome.mk 0 0 0 0 [] []).logs)) :=
  ⟨C3_amended.1 ⟨"ENG-1", "T", "https://u.v/x"⟩ ⟨"i1", "ENG-1"⟩ "403 Forbidden" (by decide),
   C3_amended.2.1 "a1" "Forbidden" (by decide),
   C3_amended.2.2 emptyRunEnv (some "doc1") none [] (SyncOutcome.mk 0 0 0 0 [] []) (by decide)⟩

/-- C4: Idempotence of reconciliation: when the existing attachments carry
exactly the desired identifiers (one attachment per desired identifier,
none extra, as after a fully successful first run), the second diff is
empty in both directions: zero operations. -/
theorem C4_idempotent (desired : List String) (existing : List LinearAttachment)
    (h : ∀ i, i ∈ desired ↔ i ∈ existingIdentifiers existing) :
    toCreate desired existing = [] ∧ toDelete desired existing = [] := by
  constructor
  · rw [toCreate, List.filter_eq_nil_iff]
    intro a ha
    simp [(h a).1 ha]
  · rw [toDelete, List.filter_eq_nil_iff]
    intro a ha
    simp only [existingIdentifiers, List.mem_map] at h
    have := (h a.issue.identifier).2 ⟨a, ha, rfl⟩
    simp [this]

/-- Witness for C4 at a concrete matched state. -/
theorem C4_idempotent_witness :
    toCreate ["ENG-1"] [⟨"a1", "u", ⟨"i1", "ENG-1"⟩⟩] = []
    ∧ toDelete ["ENG-1"] [⟨"a1", "u", ⟨"i1", "ENG-1"⟩⟩] = [] :=
  C4_idempotent ["ENG-1"] [⟨"a1", "u", ⟨"i1", "ENG-1"⟩⟩] (fun _ => Iff.rfl)

/-- C5: Run-level error propagation: perform throws exactly when the
resolved base URL is malformed (buildAttachmentUrl fails); in a completed
run every operation of the diff is settled - the operation list is
precisely the independently settled create and delete units, each
computed from its own remote responses, with every operation accounted
for in the succeeded/failed split - so no failing operation prevents a
sibling from being attempted and settling. -/
theorem C5_error_propagation (env : RemoteEnv) (d c : Option String)
    (ids : List String) :
    (∀ m, perform env d c ids = .thrown m ↔
       (env.clientPresent = true
        ∧ truthy (resolvedOf env d c).2 = true
        ∧ buildAttachmentUrl (resolvedOf env d c).2 = .error m))
    ∧ (∀ o, perform env d c ids = .done o →
        (∀ u, buildAttachmentUrl (resolvedOf env d c).2 = .ok u →
           o.ops = (toCreate ids (existingOf env)).map
                     (settleCreate env (targetTitleOf env d c) u)
                 ++ (toDelete ids (existingOf env)).map (settleDelete env))
        ∧ o.ops.length = o.created + o.deleted
        ∧ o.succeeded + o.failed = o.ops.length) := by
  refine ⟨fun m => perform_thrown_iff env d c ids m, ?_⟩
  intro o hdone
  have h := perform_counts env d c ids o hdone
  refine ⟨?_, h.2.2.1.symm, ?_⟩
  · intro u hu
    cases hc : env.clientPresent
    · rw [perform_no_client env d c ids hc] at hdone
      simp at hdone
    · cases hb : truthy (resolvedOf env d c).2
      · rw [perform_no_target env d c ids hc hb] at hdone
        simp at hdone
      · rw [perform_done_of env d c ids u hc hb hu] at hdone
        have ho : o = runOutcome env d c ids u := by
          cases hdone
          rfl
        subst ho
        rfl
  · rw [h.1, h.2.1, Nat.add_comm]
    exact length_filter_partition o.ops (fun s => isRejected s.outcome)

/-- Environment for the C5 witness throw case: a malformed configured
base URL. -/
def c5Env : RemoteEnv :=
  { clientPresent := true
    envUrl := "notaurl"
    docLookup := fun d => if d == "doc1" then some ⟨"My Doc", "/doc/x"⟩ else none
    collLookup := fun _ => none
    attachmentsRes := .ok []
    issueRes := fun _ => .ok none
    createRes := fun _ => .ok ⟨true⟩
    deleteRes := fun _ => .ok ⟨true⟩ }

/-- Witness for C5: a malformed base URL makes perform throw, and a
well-formed empty run settles an empty operation list. -/
theorem C5_error_propagation_witness :
    perform c5Env (some "doc1") none [] =
      .thrown "Invalid attachment base URL: notaurl/doc/x"
    ∧ (SyncOutcome.mk 0 0 0 0 [] []).ops =
        (toCreate [] (existingOf emptyRunEnv)).map
          (settleCreate emptyRunEnv (targetTitleOf emptyRunEnv (some "doc1") none)
            "https://app.outline.dev/doc/my-doc-abc?ref=outline-backlink")
        ++ (toDelete [] (existingOf emptyRunEnv)).map (settleDelete emptyRunEnv) :=
  ⟨((C5_error_propagation c5Env (some "doc1") none []).1
      "Invalid attachment base URL: notaurl/doc/x").2
      ⟨by decide, by decide, by rfl⟩,
   (((C5_error_propagation emptyRunEnv (some "doc1") none []).2
      (SyncOutcome.mk 0 0 0 0 [] []) (by decide)).1
      "https://app.outline.dev/doc/my-doc-abc?ref=outline-backlink" (by rfl))⟩

/-- C6: Idempotent delete: a delete operation whose remote call fails
with a not-found/404 signal settles fulfilled (the error is swallowed, not
rethrown), and since the aggregate failure count of a run counts only
rejected operations, such a delete is not counted as a failure. -/
theorem C6_idempotent_delete :
    (∀ (aid m : String),
       (strIncludes m "Not found" || strIncludes m "404") = true →
       deleteAttachment aid (.error m) = (.fulfilled, []))
    ∧ (∀ (env : RemoteEnv) (d c : Option String) (ids : List String) (o : SyncOutcome),
       perform env d c ids = .done o →
       o.failed = (o.ops.filter (fun s => isRejected s.outcome)).length) := by
  refine ⟨?_, ?_⟩
  · intro aid m hm
    simp [deleteAttachment, hm]
  · intro env d c ids o hdone
    exact (perform_counts env d c ids o hdone).1

/-- Witness for C6 at a concrete 404 message and a concrete run. -/
theorem C6_idempotent_delete_witness :
    deleteAttachment "a1" (.error "Request failed 404") = (.fulfilled, [])
    ∧ (SyncOutcome.mk 0 0 0 0 [] []).failed =
        ((SyncOutcome.mk 0 0 0 0 [] []).ops.filter
          (fun s => isRejected s.outcome)).length :=
  ⟨C6_idempotent_delete.1 "a1" "Request failed 404" (by decide),
   C6_idempotent_delete.2 emptyRunEnv (some "doc1") none []
     (SyncOutcome.mk 0 0 0 0 [] []) (by decide)⟩

/-- C7: Duplicate remote attachments: when two or more existing
attachments carry the same issue identifier, all of them land in toDelete
if that identifier is not desired; if it is desired, no create is issued
for it and none of the duplicates is deleted. -/
theorem C7_duplicate_attachments (desired : List String)
    (existing : List LinearAttachment) (i : String)
    (hdup : 2 ≤ (existing.filter (fun a => a.issue.identifier == i)).length) :
    (i ∉ desired → ∀ a ∈ existing, a.issue.identifier = i →
        a ∈ toDelete desired existing)
    ∧ (i ∈ desired → i ∉ toCreate desired existing
        ∧ ∀ a ∈ existing, a.issue.identifier = i →
            a ∉ toDelete desired existing) := by
  constructor
  · intro hnd a ha hai
    exact (mem_toDelete _ _ _).2 ⟨ha, by rw [hai]; exact hnd⟩
  · intro hd
    have hex : i ∈ existingIdentifiers existing := by
      have hlen : (existing.filter (fun a => a.issue.identifier == i)).length ≠ 0 := by
        omega
      rw [ne_eq, List.length_eq_zero] at hlen
      have ⟨a, ha⟩ := List.exists_mem_of_ne_nil _ hlen
      have := List.mem_filter.1 ha
      simp only [existingIdentifiers, List.mem_map]
      exact ⟨a, this.1, by simpa using this.2⟩
    constructor
    · intro hc
      exact ((mem_toCreate _ _ _).1 hc).2 hex
    · intro a ha hai hdel
      exact ((mem_toDelete _ _ _).1 hdel).2 (by rw [hai]; exact hd)

/-- Witness for C7 at a concrete list holding two duplicates. -/
theorem C7_duplicate_attachments_witness :
    ("ENG-1" ∉ ["ENG-2"] →
      ∀ a ∈ [(⟨"a1", "u", ⟨"i1", "ENG-1"⟩⟩ : LinearAttachment),
             ⟨"a2", "u", ⟨"i1", "ENG-1"⟩⟩],
        a.issue.identifier = "ENG-1" →
        a ∈ toDelete ["ENG-2"]
              [⟨"a1", "u", ⟨"i1", "ENG-1"⟩⟩, ⟨"a2", "u", ⟨"i1", "ENG-1"⟩⟩])
    ∧ ("ENG-1" ∈ ["ENG-2"] →
        "ENG-1" ∉ toCreate ["ENG-2"]
              [⟨"a1", "u", ⟨"i1", "ENG-1"⟩⟩, ⟨"a2", "u", ⟨"i1", "ENG-1"⟩⟩]
        ∧ ∀ a ∈ [(⟨"a1", "u", ⟨"i1", "ENG-1"⟩⟩ : LinearAttachment),
                 ⟨"a2", "u", ⟨"i1", "ENG-1"⟩⟩],
            a.issue.identifier = "ENG-1" →
            a ∉ toDelete ["ENG-2"]
                  [⟨"a1", "u", ⟨"i1", "ENG-1"⟩⟩, ⟨"a2", "u", ⟨"i1", "ENG-1"⟩⟩]) :=
  C7_duplicate_attachments ["ENG-2"]
    [⟨"a1", "u", ⟨"i1", "ENG-1"⟩⟩, ⟨"a2", "u", ⟨"i1", "ENG-1"⟩⟩] "ENG-1" (by decide)

/-- Environment for the C8 counterexample: a collection with an empty
stored name. -/
def c8Env : RemoteEnv :=
  { clientPresent := true
    envUrl := "https://app.outline.dev"
    docLookup := fun _ => none
    collLookup := fun c => if c == "coll1" then some ⟨"", "/collection/xyz"⟩ else none
    attachmentsRes := .ok []
    issueRes := fun _ => .ok (some ⟨"i9", "ENG-9"⟩)
    createRes := fun _ => .ok ⟨true⟩
    deleteRes := fun _ => .ok ⟨true⟩ }

/-- C8 counterexample: a resolved collection whose stored name is empty
gets the placeholder Untitled Collection, not the claimed fixed
placeholder Untitled, and that title is the one used for the created
attachment. -/
theorem C8_counterexample :
    (resolveTarget "https://app.outline.dev" none (some "coll1")
        (fun _ => none)
        (fun c => if c == "coll1" then some ⟨"", "/collection/xyz"⟩ else none)).1.1
      = "Untitled Collection"
    ∧ (doneOutcome (perform c8Env none (some "coll1") ["ENG-9"])).map
        (fun o => o.ops.map OpSettled.spec)
      = some [.create ⟨"ENG-9", "Untitled Collection",
              "https://app.outline.dev/collection/xyz?ref=outline-backlink"⟩]
    ∧ "Untitled Collection" ≠ "Untitled" := by
  decide

/-- C8 (amended): an empty stored title resolves to the placeholder
Untitled for documents but to Untitled Collection for collections; the
title created attachments carry is exactly the resolved title whenever it
is non-empty (perform only substitutes Untitled for an empty title). -/
theorem C8_amended :
    (∀ (envUrl did : String) (cid : Option String)
       (docLookup : String → Option DocRecord)
       (collLookup : String → Option CollRecord) (doc : DocRecord),
       truthy envUrl = true → truthy did = true →
       docLookup did = some doc → doc.title = "" → truthy doc.path = true →
       (resolveTarget envUrl (some did) cid docLookup collLookup).1.1 = "Untitled")
    ∧ (∀ (envUrl cid : String)
       (docLookup : String → Option DocRecord)
       (collLookup : String → Option CollRecord) (coll : CollRecord),
       truthy envUrl = true → truthy cid = true →
       collLookup cid = some coll → coll.name = "" → truthy coll.path = true →
       (resolveTarget envUrl none (some cid) docLookup collLookup).1.1
         = "Untitled Collection")
    ∧ (∀ (env : RemoteEnv) (d c : Option String),
       truthy (resolvedOf env d c).1 = true →
       targetTitleOf env d c = (resolvedOf env d c).1)
    ∧ (∀ (env : RemoteEnv) (d c : Option String) (ids : List String)
       (o : SyncOutcome) (s : OpSettled) (p : CreateParams),
       perform env d c ids = .done o → s ∈ o.ops → s.spec = .create p →
       p.title = targetTitleOf env d c) := by
  refine ⟨?_, ?_, ?_, ?_⟩
  · intro envUrl did cid docLookup collLookup doc henv hdid hl ht hp
    have hd : did.isEmpty = false := by simpa [truthy] using hdid
    have he : envUrl.isEmpty = false := by simpa [truthy] using henv
    have hpp : doc.path.isEmpty = false := by simpa [truthy] using hp
    simp [resolveTarget, optTruthy, truthy, he, hd, hl, hpp, ht]
    rfl
  · intro envUrl cid docLookup collLookup coll henv hcid hl hn hp
    have hc : cid.isEmpty = false := by simpa [truthy] using hcid
    have he : envUrl.isEmpty = false := by simpa [truthy] using henv
    have hpp : coll.path.isEmpty = false := by simpa [truthy] using hp
    simp [resolveTarget, optTruthy, truthy, he, hc, hl, hpp, hn]
    rfl
  · intro env d c h
    simp [targetTitleOf, h]
  · intro env d c ids o s p hdone hs hspec
    cases hc : env.clientPresent
    · rw [perform_no_client env d c ids hc] at hdone
      simp at hdone
    · cases hb : truthy (resolvedOf env d c).2
      · rw [perform_no_target env d c ids hc hb] at hdone
        simp at hdone
      · cases hu : buildAttachmentUrl (resolvedOf env d c).2 with
        | error e =>
          rw [(perform_thrown_iff env d c ids e).2 ⟨hc, hb, hu⟩] at hdone
          simp at hdone
        | ok u =>
          rw [perform_done_of env d c ids u hc hb hu] at hdone
          have ho : o = runOutcome env d c ids u := by
            cases hdone
            rfl
          subst ho
          simp only [runOutcome] at hs
          rcases List.mem_append.1 hs with h | h
          · rcases List.mem_map.1 h with ⟨ident, hident, rfl⟩
            simp only [settleCreate] at hspec
            cases hspec
            rfl
          · rcases List.mem_map.1 h with ⟨a, ha, rfl⟩
            simp [settleDelete] at hspec

/-- Witness for C8 (amended) at concrete lookups. -/
theorem C8_amended_witness :
    (resolveTarget "https://a.b" (some "d1") none
        (fun x => if x == "d1" then some ⟨"", "/doc/x"⟩ else none)
        (fun _ => none)).1.1 = "Untitled"
    ∧ (resolveTarget "https://a.b" none (some "c1")
        (fun _ => none)
        (fun x => if x == "c1" then some ⟨"", "/collection/x"⟩ else none)).1.1
      = "Untitled Collection"
    ∧ targetTitleOf emptyRunEnv (some "doc1") none
      = (resolvedOf emptyRunEnv (some "doc1") none).1 :=
  ⟨C8_amended.1 "https://a.b" "d1" none
      (fun x => if x == "d1" then some ⟨"", "/doc/x"⟩ else none)
      (fun _ => none) ⟨"", "/doc/x"⟩
      (by decide) (by decide) (by decide) (by decide) (by decide),
   C8_amended.2.1 "https://a.b" "c1"
      (fun _ => none)
      (fun x => if x == "c1" then some ⟨"", "/collection/x"⟩ else none)
      ⟨"", "/collection/x"⟩
      (by decide) (by decide) (by decide) (by decide) (by decide),
   C8_amended.2.2.1 emptyRunEnv (some "doc1") none (by decide)⟩

/-- C9 counterexample: changing only the entity path input from /x to
/x?y=1 leaves the path component of the marker-bearing URL unchanged and
changes its query component instead, refuting the claim that a path
change affects only the path component. -/
theorem C9_counterexample :
    buildEntityUrl "https://a.b" "/x" ≠ buildEntityUrl "https://a.b" "/x?y=1"
    ∧ (buildAttachmentUrlRec (buildEntityUrl "https://a.b" "/x")).map URLRec.path
        = some "/x"
    ∧ (buildAttachmentUrlRec (buildEntityUrl "https://a.b" "/x?y=1")).map URLRec.path
        = some "/x"
    ∧ (buildAttachmentUrlRec (buildEntityUrl "https://a.b" "/x")).map URLRec.query
        = some [("ref", "outline-backlink")]
    ∧ (buildAttachmentUrlRec (buildEntityUrl "https://a.b" "/x?y=1")).map URLRec.query
        = some [("y", "1"), ("ref", "outline-backlink")] := by
  decide

/-- C9 (amended): canonicalization is a pure function of its input (equal
inputs give byte-identical output); every successfully canonicalized URL
carries the fixed marker parameter ref=outline-backlink in its query; and
for base URLs of the plain shape scheme://host basePath and entity paths
free of query and fragment characters, the output is exactly the base,
the slash-normalized path, and the marker suffix - so changing only the
entity path changes only the path segment of the output; paths containing
a question mark or hash instead shift material into the query or fragment
component (see the counterexample). -/
theorem C9_amended :
    (∀ b1 b2 : String, b1 = b2 → buildAttachmentUrl b1 = buildAttachmentUrl b2)
    ∧ (∀ (b : String) (u : URLRec), buildAttachmentUrlRec b = some u →
        (OUTLINE_REF_PARAM, OUTLINE_REF_VALUE) ∈ u.query)
    ∧ (∀ scheme host basePath p1 p2 : String,
        scheme.data ≠ [] → scheme.data.all Char.isAlpha = true →
        host.data ≠ [] → host.data.all (fun c => !isHostEnd c) = true →
        (basePath = "" ∨ basePath.data.head? = some '/') →
        (basePath.data ++ (padPath p1).data).all (fun c => !isPathEnd c) = true →
        (basePath.data ++ (padPath p2).data).all (fun c => !isPathEnd c) = true →
        buildAttachmentUrl (buildEntityUrl (scheme ++ "://" ++ host ++ basePath) p1)
          = .ok (scheme ++ "://" ++ host ++ basePath ++ padPath p1
                 ++ "?ref=outline-backlink")
        ∧ buildAttachmentUrl (buildEntityUrl (scheme ++ "://" ++ host ++ basePath) p2)
          = .ok (scheme ++ "://" ++ host ++ basePath ++ padPath p2
                 ++ "?ref=outline-backlink")) := by
  refine ⟨fun b1 b2 h => congrArg buildAttachmentUrl h, ?_, ?_⟩
  · intro b u hu
    rw [buildAttachmentUrlRec] at hu
    cases hp : URL.parse b with
    | none =>
      rw [hp] at hu
      simp at hu
    | some r =>
      rw [hp] at hu
      have hu2 : { r with query := setParam r.query OUTLINE_REF_PARAM OUTLINE_REF_VALUE } = u :=
        Option.some.inj hu
      rw [← hu2]
      exact mem_setParam r.query OUTLINE_REF_PARAM OUTLINE_REF_VALUE
  · intro scheme host basePath p1 p2 hs hsa hh hhs hbase h1 h2
    exact ⟨buildAttachmentUrl_simple scheme host basePath p1 hs hsa hh hhs hbase h1,
           buildAttachmentUrl_simple scheme host basePath p2 hs hsa hh hhs hbase h2⟩

/-- Witness for C9 (amended) at concrete base and paths. -/
theorem C9_amended_witness :
    buildAttachmentUrl "https://a.b/x" = buildAttachmentUrl "https://a.b/x"
    ∧ (OUTLINE_REF_PARAM, OUTLINE_REF_VALUE) ∈
        (URLRec.mk "https" "a.b" "/x" [("ref", "outline-backlink")] none).query
    ∧ (buildAttachmentUrl (buildEntityUrl ("https" ++ "://" ++ "a.b" ++ "") "/x")
         = .ok ("https" ++ "://" ++ "a.b" ++ "" ++ padPath "/x"
                ++ "?ref=outline-backlink")
       ∧ buildAttachmentUrl (buildEntityUrl ("https" ++ "://" ++ "a.b" ++ "") "/y")
         = .ok ("https" ++ "://" ++ "a.b" ++ "" ++ padPath "/y"
                ++ "?ref=outline-backlink")) :=
  ⟨C9_amended.1 "https://a.b/x" "https://a.b/x" rfl,
   C9_amended.2.1 "https://a.b/x"
     (URLRec.mk "https" "a.b" "/x" [("ref", "outline-backlink")] none) (by decide),
   C9_amended.2.2 "https" "a.b" "" "/x" "/y"
     (by decide) (by decide) (by decide) (by decide) (Or.inl rfl)
     (by decide) (by decide)⟩

/-- C10: an attachment node whose linked issue resolves to undefined is
omitted from the existing set (the fetch keeps exactly the resolvable
nodes), hence such an attachment is never scheduled for deletion, and an
identifier carried only by unresolvable nodes does not suppress a create
for a matching desired identifier. -/
theorem C10_unresolved_issue_omitted (nodes : List RawAttachmentNode)
    (desired : List String)
    (hok : nodes.all (fun n => !nodeErrored n) = true) :
    ((fetchAttachmentsForUrl (.ok nodes)).1 = nodes.filterMap resolveNode
     ∧ ∀ n, n.issue = .ok none → resolveNode n = none)
    ∧ (∀ a ∈ toDelete desired (fetchAttachmentsForUrl (.ok nodes)).1,
        ∃ n ∈ nodes, resolveNode n = some a)
    ∧ (∀ i ∈ desired,
        (∀ n ∈ nodes, ∀ a, resolveNode n = some a → a.issue.identifier ≠ i) →
        i ∈ toCreate desired (fetchAttachmentsForUrl (.ok nodes)).1) := by
  have hfetch : (fetchAttachmentsForUrl (.ok nodes)).1 = nodes.filterMap resolveNode := by
    have : nodes.any nodeErrored = false := by
      rw [List.any_eq_false]
      intro n hn
      simpa using (List.all_eq_true.1 hok) n hn
    simp [fetchAttachmentsForUrl, this]
  refine ⟨⟨hfetch, ?_⟩, ?_, ?_⟩
  · intro n hn
    simp [resolveNode, hn]
  · intro a ha
    have := (mem_toDelete _ _ _).1 ha
    rw [hfetch] at this
    have ⟨n, hn, hres⟩ := List.mem_filterMap.1 this.1
    exact ⟨n, hn, hres⟩
  · intro i hi hnone
    apply (mem_toCreate _ _ _).2
    refine ⟨hi, ?_⟩
    rw [hfetch]
    intro hmem
    simp only [existingIdentifiers, List.mem_map] at hmem
    have ⟨a, hamem, haid⟩ := hmem
    have ⟨n, hn, hres⟩ := List.mem_filterMap.1 hamem
    exact hnone n hn a hres haid

/-- Witness for C10 at a concrete node list with one unresolvable node. -/
theorem C10_unresolved_issue_omitted_witness :
    ((fetchAttachmentsForUrl (.ok [(⟨"a1", "u", .ok (some ⟨"i1", "ENG-1"⟩)⟩ : RawAttachmentNode),
        ⟨"a2", "u", .ok none⟩])).1
      = ([⟨"a1", "u", .ok (some ⟨"i1", "ENG-1"⟩)⟩,
          (⟨"a2", "u", .ok none⟩ : RawAttachmentNode)] : List RawAttachmentNode).filterMap
          resolveNode
     ∧ ∀ n : RawAttachmentNode, n.issue = .ok none → resolveNode n = none)
    ∧ (∀ a ∈ toDelete ["ENG-2"]
          (fetchAttachmentsForUrl (.ok [(⟨"a1", "u", .ok (some ⟨"i1", "ENG-1"⟩)⟩ : RawAttachmentNode),
            ⟨"a2", "u", .ok none⟩])).1,
        ∃ n ∈ ([⟨"a1", "u", .ok (some ⟨"i1", "ENG-1"⟩)⟩,
                (⟨"a2", "u", .ok none⟩ : RawAttachmentNode)] : List RawAttachmentNode),
          resolveNode n = some a)
    ∧ (∀ i ∈ (["ENG-2"] : List String),
        (∀ n ∈ ([⟨"a1", "u", .ok (some ⟨"i1", "ENG-1"⟩)⟩,
                 (⟨"a2", "u", .ok none⟩ : RawAttachmentNode)] : List RawAttachmentNode),
           ∀ a, resolveNode n = some a → a.issue.identifier ≠ i) →
        i ∈ toCreate ["ENG-2"]
          (fetchAttachmentsForUrl (.ok [(⟨"a1", "u", .ok (some ⟨"i1", "ENG-1"⟩)⟩ : RawAttachmentNode),
            ⟨"a2", "u", .ok none⟩])).1) :=
  C10_unresolved_issue_omitted
    [⟨"a1", "u", .ok (some ⟨"i1", "ENG-1"⟩)⟩, ⟨"a2", "u", .ok none⟩]
    ["ENG-2"] (by decide)
